import Mathlib

set_option maxRecDepth 4000

/-!
Shallow embedding of `elfdwt` (src/main.cpp): a tool that patches the boot-ROM
checksum word of an ELF32 little-endian image.  The file is modelled as a
`List Nat` of byte values; multi-byte fields are decoded little-endian exactly
as the C++ code reads them through its struct overlays on a little-endian host.
-/

namespace ElfDwt

/-- Little-endian 16-bit read at byte offset `off`; bytes outside the buffer
read as 0 (the C++ code only reads fields after validating bounds). -/
def u16le (raw : List Nat) (off : Nat) : Nat :=
  raw.getD off 0 + 256 * raw.getD (off + 1) 0

/-- Little-endian 32-bit read at byte offset `off`, mirroring
`ptr[0] | ptr[1] << 8 | ptr[2] << 16 | ptr[3] << 24`. -/
def u32le (raw : List Nat) (off : Nat) : Nat :=
  raw.getD off 0 + 256 * raw.getD (off + 1) 0 + 65536 * raw.getD (off + 2) 0 +
    16777216 * raw.getD (off + 3) 0

/-- `sizeof(elf::header)` = 52 bytes (16 ident + 2+2 + 4*5 + 2*6, no padding). -/
def headerSize : Nat := 52

/-- `sizeof(elf::sector_header)` = 40 bytes (10 × uint32). -/
def sectorHeaderSize : Nat := 40

/-- `header.e_shoff`: uint32 at struct offset 32. -/
def e_shoff (raw : List Nat) : Nat := u32le raw 32

/-- `header.e_shnum`: uint16 at struct offset 48. -/
def e_shnum (raw : List Nat) : Nat := u16le raw 48

/-- `header.e_shentsize`: uint16 at struct offset 46.  The C++ code declares
this field but never reads it. -/
def e_shentsize (raw : List Nat) : Nat := u16le raw 46

/-- Byte offset of section header `i` as the code addresses it:
`reinterpret_cast<elf::sector_header*>(raw.data() + header.e_shoff)[i]`,
i.e. `e_shoff + i * sizeof(elf::sector_header)`. -/
def sectionBase (raw : List Nat) (i : Nat) : Nat := e_shoff raw + i * sectorHeaderSize

/-- `sections[1].sh_type`: uint32 at offset 4 inside the section header. -/
def sh_type (raw : List Nat) : Nat := u32le raw (sectionBase raw 1 + 4)

/-- `sections[1].sh_offset`: uint32 at offset 16 inside the section header. -/
def sh_offset (raw : List Nat) : Nat := u32le raw (sectionBase raw 1 + 16)

/-- Byte offset of section header `i` as §3 of the design document describes
it: `e_shoff + i * e_shentsize`, using the header's `e_shentsize` field.
Stated from the spec's words only, to be compared with `sectionBase`. -/
def sectionBaseSpec (raw : List Nat) (i : Nat) : Nat :=
  e_shoff raw + i * e_shentsize raw

/-- `sections[1].sh_type` under the spec's addressing `e_shoff + e_shentsize`. -/
def sh_typeSpec (raw : List Nat) : Nat := u32le raw (sectionBaseSpec raw 1 + 4)

/-- The 4 ELF signature bytes `{0x7f, 'E', 'L', 'F'}` compared by
`std::equal(elf_signature.begin(), elf_signature.end(), raw.begin())`;
bytes past the end of a short buffer are modelled as 0 (all signature bytes
are nonzero, so a buffer shorter than 4 bytes can never match). -/
def signatureOk (raw : List Nat) : Bool :=
  (raw.getD 0 0 == 0x7f) && (raw.getD 1 0 == 0x45) &&
    (raw.getD 2 0 == 0x4c) && (raw.getD 3 0 == 0x46)

/-- The 7 little-endian words read from `vectors.sh_offset + i*4`, i = 0..6. -/
def crcWords (raw : List Nat) (off : Nat) : List Nat :=
  [u32le raw off, u32le raw (off + 4), u32le raw (off + 8), u32le raw (off + 12),
   u32le raw (off + 16), u32le raw (off + 20), u32le raw (off + 24)]

/-- `calculate_crc`: sums the words with wraparound uint32 addition and
returns `(uint32_t)0 - ret`, i.e. the two's-complement negation mod 2^32. -/
def calculate_crc (data : List Nat) : Nat :=
  let ret := data.foldl (fun r d => (r + d) % 4294967296) 0
  (4294967296 - ret) % 4294967296

/-- The patch step: `location[k] = (crc >> 8k) & 0xff` for k = 0..3 at
`vectors.sh_offset + 7*4`. -/
def patch (raw : List Nat) (off crc : Nat) : List Nat :=
  ((((raw.set (off + 28) (crc % 256)).set (off + 29) (crc / 256 % 256)).set
      (off + 30) (crc / 65536 % 256)).set (off + 31) (crc / 16777216 % 256))

/-- The error kinds of §7 of the design document, in the order `main` checks
them.  `writeFailure` appears in the document but has no counterpart check in
the code. -/
inductive Err where
  | missingArgument
  | emptyOrUnreadableFile
  | invalidSignature
  | tooSmallForHeader
  | tooFewSections
  | tooSmallForSectionTable
  | wrongSectionType
  | tooSmallForVectorTable
  deriving DecidableEq, Repr

instance : DecidableEq (Except Err (List Nat)) := fun a b =>
  match a, b with
  | .ok x, .ok y =>
    if h : x = y then .isTrue (by rw [h]) else .isFalse (by simp [h])
  | .error e, .error f =>
    if h : e = f then .isTrue (by rw [h]) else .isFalse (by simp [h])
  | .ok _, .error _ => .isFalse (by simp)
  | .error _, .ok _ => .isFalse (by simp)

/-- The exact `Error:` line `main` prints for each failure kind. -/
def errorMessage : Err → String
  | .missingArgument => "Error: argument expected"
  | .emptyOrUnreadableFile => "Error: could not open file"
  | .invalidSignature => "Error: invalid elf file (no header)"
  | .tooSmallForHeader => "Error: invalid elf file (file to small, header)"
  | .tooFewSections => "Error: invalid elf file (not enough sections)"
  | .tooSmallForSectionTable => "Error: invalid elf file (file to small, sections)"
  | .wrongSectionType => "Error: first section does not have the progbits flag set"
  | .tooSmallForVectorTable => "Error: invalid elf file (file to small, vectors)"

/-- Whether the character list contains the letters `elf` consecutively. -/
def hasElf : List Char → Bool
  | 'e' :: 'l' :: 'f' :: _ => true
  | _ :: rest => hasElf rest
  | [] => false

/-- Whether a message mentions ELF (formalising "ELF-specific message"). -/
def mentionsElf (s : String) : Bool := hasElf s.data

/-- The in-memory pipeline of `main` after the file bytes are loaded: the
validation checks in source order, then the locator checks, then the
checksum-and-patch step.  The `.ok` value is the patched buffer that `main`
writes back; every `.error` branch is a `return -1` taken before any write. -/
def process (raw : List Nat) : Except Err (List Nat) :=
  if raw.length = 0 then .error .emptyOrUnreadableFile
  else if signatureOk raw = false then .error .invalidSignature
  else if raw.length < headerSize then .error .tooSmallForHeader
  else if e_shnum raw < 2 then .error .tooFewSections
  else if raw.length < e_shoff raw + e_shnum raw * sectorHeaderSize then
    .error .tooSmallForSectionTable
  else if sh_type raw ≠ 1 then .error .wrongSectionType
  else if raw.length < sh_offset raw + 32 then .error .tooSmallForVectorTable
  else .ok (patch raw (sh_offset raw) (calculate_crc (crcWords raw (sh_offset raw))))

/-- One whole run on the loaded bytes: exit code and resulting on-disk bytes
(assuming the unchecked write-back succeeds; on every error branch `main`
returns `-1` before the output file is ever opened, leaving the file as it
was). -/
def elfdwt (raw : List Nat) : Int × List Nat :=
  match process raw with
  | .error _ => (-1, raw)
  | .ok out => (0, out)

/-- The exit code of `main` given the loaded bytes and whether the write-back
succeeds.  The C++ code never inspects the output stream state after
`std::copy`, so the result does not depend on `writeOk`. -/
def mainExit (raw : List Nat) (writeOk : Bool) : Int :=
  match process raw with
  | .error _ => -1
  | .ok _ => 0

/-- A run including the argument check: `argc <= 1` prints
`Error: argument expected` and returns -1 before any file is touched. -/
def run (arg : Option (List Nat)) : Except Err (List Nat) :=
  match arg with
  | none => .error .missingArgument
  | some raw => process raw

/-! ### Concrete test images

`goodImage` is a minimal accepted ELF32LE fixture: 164 bytes, `e_shoff = 52`,
`e_shnum = 2`, section 1 (at byte 92) has `sh_type = 1` (PROGBITS) and
`sh_offset = 132`; the vector table occupies bytes 132–163 and its first
word is 1, so the checksum is `0xFFFFFFFF`. -/

def goodImage : List Nat :=
  (((((((((List.replicate 164 0).set 0 0x7f).set 1 0x45).set 2 0x4c).set 3 0x46).set
      32 52).set 48 2).set 96 1).set 108 132).set 132 1

/-- The buffer `main` writes back for `goodImage`. -/
def goodPatched : List Nat :=
  patch goodImage (sh_offset goodImage)
    (calculate_crc (crcWords goodImage (sh_offset goodImage)))

/-- An accepted 132-byte image whose section-1 `sh_offset` (= 80) makes the
patched word land exactly on the `sh_offset` field itself (bytes 108–111):
the vector words sum to 0 mod 2^32, so the patch overwrites `sh_offset`
with 0 and a second run patches a different location. -/
def cexImageC10 : List Nat :=
  ((((((((((((List.replicate 132 0).set 0 0x7f).set 1 0x45).set 2 0x4c).set
      3 0x46).set 32 52).set 48 2).set 96 1).set 108 80).set 80 255).set
      81 255).set 82 255).set 83 255

/-- `goodImage` with the `e_shentsize` field (byte 46) set to 12 instead
of 0: the code still reads section 1 at `e_shoff + 40`. -/
def cexImageC6 : List Nat := goodImage.set 46 12

/-- A 132-byte image whose length is exactly `e_shoff + e_shnum * 40`
(= 52 + 80); section 1 has type 0. -/
def boundaryImage : List Nat :=
  ((((((List.replicate 132 0).set 0 0x7f).set 1 0x45).set 2 0x4c).set 3 0x46).set
      32 52).set 48 2

/-- `boundaryImage` truncated to 131 bytes: one byte short of the
section-table bound. -/
def boundaryImageShort : List Nat :=
  ((((((List.replicate 131 0).set 0 0x7f).set 1 0x45).set 2 0x4c).set 3 0x46).set
      32 52).set 48 2

/-! ### Basic byte-level lemmas -/

theorem getD_set_ne (l : List Nat) (i j v : Nat) (h : i ≠ j) :
    (l.set i v).getD j 0 = l.getD j 0 := by
  simp [List.getD_eq_getElem?_getD, List.getElem?_set_ne h]

theorem getD_set_self (l : List Nat) (i v : Nat) (h : i < l.length) :
    (l.set i v).getD i 0 = v := by
  simp [List.getD_eq_getElem?_getD, List.getElem?_set_eq_of_lt v h]

theorem set_getD_self (l : List Nat) (i : Nat) : l.set i (l.getD i 0) = l := by
  induction l generalizing i with
  | nil => simp
  | cons a t ih =>
    cases i with
    | zero => simp
    | succ n => simpa using ih n

theorem patch_length (raw : List Nat) (off crc : Nat) :
    (patch raw off crc).length = raw.length := by
  simp [patch]

theorem patch_getD_out (raw : List Nat) (off crc j : Nat)
    (h : j < off + 28 ∨ off + 32 ≤ j) :
    (patch raw off crc).getD j 0 = raw.getD j 0 := by
  unfold patch
  rw [getD_set_ne _ _ _ _ (by omega), getD_set_ne _ _ _ _ (by omega),
    getD_set_ne _ _ _ _ (by omega), getD_set_ne _ _ _ _ (by omega)]

theorem patch_getD_b0 (raw : List Nat) (off crc : Nat) (h : off + 32 ≤ raw.length) :
    (patch raw off crc).getD (off + 28) 0 = crc % 256 := by
  unfold patch
  rw [getD_set_ne _ _ _ _ (by omega), getD_set_ne _ _ _ _ (by omega),
    getD_set_ne _ _ _ _ (by omega), getD_set_self _ _ _ (by omega)]

theorem patch_getD_b1 (raw : List Nat) (off crc : Nat) (h : off + 32 ≤ raw.length) :
    (patch raw off crc).getD (off + 29) 0 = crc / 256 % 256 := by
  unfold patch
  rw [getD_set_ne _ _ _ _ (by omega), getD_set_ne _ _ _ _ (by omega),
    getD_set_self _ _ _ (by simp [List.length_set]; omega)]

theorem patch_getD_b2 (raw : List Nat) (off crc : Nat) (h : off + 32 ≤ raw.length) :
    (patch raw off crc).getD (off + 30) 0 = crc / 65536 % 256 := by
  unfold patch
  rw [getD_set_ne _ _ _ _ (by omega),
    getD_set_self _ _ _ (by simp [List.length_set]; omega)]

theorem patch_getD_b3 (raw : List Nat) (off crc : Nat) (h : off + 32 ≤ raw.length) :
    (patch raw off crc).getD (off + 31) 0 = crc / 16777216 % 256 := by
  unfold patch
  rw [getD_set_self _ _ _ (by simp [List.length_set]; omega)]

theorem patch_fixed (l : List Nat) (off crc : Nat)
    (b0 : l.getD (off + 28) 0 = crc % 256)
    (b1 : l.getD (off + 29) 0 = crc / 256 % 256)
    (b2 : l.getD (off + 30) 0 = crc / 65536 % 256)
    (b3 : l.getD (off + 31) 0 = crc / 16777216 % 256) :
    patch l off crc = l := by
  unfold patch
  rw [← b0, set_getD_self, ← b1, set_getD_self, ← b2, set_getD_self, ← b3, set_getD_self]

theorem u32le_patch (raw : List Nat) (off crc p : Nat)
    (h : p + 4 ≤ off + 28 ∨ off + 32 ≤ p) :
    u32le (patch raw off crc) p = u32le raw p := by
  unfold u32le
  rw [patch_getD_out _ _ _ _ (by omega), patch_getD_out _ _ _ _ (by omega),
    patch_getD_out _ _ _ _ (by omega), patch_getD_out _ _ _ _ (by omega)]

theorem u16le_patch (raw : List Nat) (off crc p : Nat)
    (h : p + 2 ≤ off + 28 ∨ off + 32 ≤ p) :
    u16le (patch raw off crc) p = u16le raw p := by
  unfold u16le
  rw [patch_getD_out _ _ _ _ (by omega), patch_getD_out _ _ _ _ (by omega)]

theorem signatureOk_patch (raw : List Nat) (off crc : Nat) :
    signatureOk (patch raw off crc) = signatureOk raw := by
  unfold signatureOk
  rw [patch_getD_out _ _ _ _ (by omega), patch_getD_out _ _ _ _ (by omega),
    patch_getD_out _ _ _ _ (by omega), patch_getD_out _ _ _ _ (by omega)]

theorem crcWords_patch (raw : List Nat) (off crc : Nat) :
    crcWords (patch raw off crc) off = crcWords raw off := by
  unfold crcWords
  rw [u32le_patch _ _ _ _ (by omega), u32le_patch _ _ _ _ (by omega),
    u32le_patch _ _ _ _ (by omega), u32le_patch _ _ _ _ (by omega),
    u32le_patch _ _ _ _ (by omega), u32le_patch _ _ _ _ (by omega),
    u32le_patch _ _ _ _ (by omega)]

/-! ### Checksum engine -/

theorem foldl_addmod (l : List Nat) :
    ∀ a : Nat, l.foldl (fun r d => (r + d) % 4294967296) (a % 4294967296) =
      (a + l.sum) % 4294967296 := by
  induction l with
  | nil => intro a; simp
  | cons x t ih =>
    intro a
    simp only [List.foldl_cons, List.sum_cons]
    rw [Nat.mod_add_mod, ih (a + x), Nat.add_assoc]

theorem calculate_crc_eq (l : List Nat) :
    calculate_crc l = (4294967296 - l.sum % 4294967296) % 4294967296 := by
  unfold calculate_crc
  have h0 : (0 : Nat) = 0 % 4294967296 := by norm_num
  rw [h0, foldl_addmod l 0, Nat.zero_add]

theorem calculate_crc_sum_zero (l : List Nat) :
    (l.sum + calculate_crc l) % 4294967296 = 0 := by
  rw [calculate_crc_eq]
  have hs : l.sum % 4294967296 < 4294967296 := Nat.mod_lt _ (by norm_num)
  rcases Nat.eq_zero_or_pos (l.sum % 4294967296) with h | h
  · rw [h]
    simp [Nat.add_mod, h]
  · have hlt : 4294967296 - l.sum % 4294967296 < 4294967296 := by omega
    rw [Nat.mod_eq_of_lt hlt, Nat.add_mod, Nat.mod_eq_of_lt hlt]
    have h2 : l.sum % 4294967296 + (4294967296 - l.sum % 4294967296) = 4294967296 := by
      omega
    rw [h2]

/-! ### Unfolding lemmas for the pipeline -/

theorem process_ok_of (raw : List Nat) (h0 : raw.length ≠ 0)
    (h1 : signatureOk raw = true) (h2 : headerSize ≤ raw.length)
    (h3 : 2 ≤ e_shnum raw)
    (h4 : e_shoff raw + e_shnum raw * sectorHeaderSize ≤ raw.length)
    (h5 : sh_type raw = 1) (h6 : sh_offset raw + 32 ≤ raw.length) :
    process raw =
      .ok (patch raw (sh_offset raw) (calculate_crc (crcWords raw (sh_offset raw)))) := by
  unfold process
  rw [if_neg h0, if_neg (by simp [h1]), if_neg (by omega), if_neg (by omega),
    if_neg (by omega), if_neg (by simp [h5]), if_neg (by omega)]

theorem process_ok_inv (raw out : List Nat) (h : process raw = .ok out) :
    raw.length ≠ 0 ∧ signatureOk raw = true ∧ headerSize ≤ raw.length ∧
      2 ≤ e_shnum raw ∧ e_shoff raw + e_shnum raw * sectorHeaderSize ≤ raw.length ∧
      sh_type raw = 1 ∧ sh_offset raw + 32 ≤ raw.length ∧
      out = patch raw (sh_offset raw) (calculate_crc (crcWords raw (sh_offset raw))) := by
  unfold process at h
  split_ifs at h with g1 g2 g3 g4 g5 g6 g7
  injection h with hout
  refine ⟨g1, ?_, Nat.not_lt.mp g3, Nat.not_lt.mp g4, Nat.not_lt.mp g5,
    not_not.mp g6, Nat.not_lt.mp g7, hout.symm⟩
  cases hs : signatureOk raw
  · exact absurd hs g2
  · rfl

theorem process_after_validation (raw : List Nat) (h0 : raw.length ≠ 0)
    (h1 : signatureOk raw = true) (h2 : headerSize ≤ raw.length)
    (h3 : 2 ≤ e_shnum raw)
    (h4 : e_shoff raw + e_shnum raw * sectorHeaderSize ≤ raw.length) :
    process raw =
      if sh_type raw ≠ 1 then .error .wrongSectionType
      else if raw.length < sh_offset raw + 32 then .error .tooSmallForVectorTable
      else
        .ok (patch raw (sh_offset raw) (calculate_crc (crcWords raw (sh_offset raw)))) := by
  unfold process
  rw [if_neg h0, if_neg (by simp [h1]), if_neg (by omega), if_neg (by omega),
    if_neg (by omega)]

/-! ### C1: the checksum engine -/

/-- C1: for every list of 7 unsigned 32-bit words, `calculate_crc` returns
`(0 - sum) mod 2^32` (wraparound arithmetic), so the sum of the 7 inputs and
the checksum is congruent to 0 mod 2^32.  The engine is a total function of
its argument, hence deterministic. -/
theorem checksum_engine_correct (words : List Nat) (h7 : words.length = 7)
    (hw : ∀ w ∈ words, w < 4294967296) :
    calculate_crc words = (4294967296 - words.sum % 4294967296) % 4294967296 ∧
      (words.sum + calculate_crc words) % 4294967296 = 0 :=
  ⟨calculate_crc_eq words, calculate_crc_sum_zero words⟩

/-- Witness for C1, on the spec's Scenario D input `[1,2,3,4,5,6,7]`:
the checksum is `0xFFFFFFE4 = 4294967268` and the modular sum is 0. -/
theorem checksum_engine_correct_witness :
    calculate_crc [1, 2, 3, 4, 5, 6, 7] = 4294967268 ∧
      (([1, 2, 3, 4, 5, 6, 7] : List Nat).sum +
        calculate_crc [1, 2, 3, 4, 5, 6, 7]) % 4294967296 = 0 :=
  ⟨by decide,
    (checksum_engine_correct [1, 2, 3, 4, 5, 6, 7] (by decide) (by decide)).2⟩

/-! ### C3: no write on any error path -/

/-- C3: a missing argument fails with `missingArgument` before any file is
read, and on every input whose validation or location fails, `main` returns
`-1` without opening the output stream, so the on-disk bytes are unchanged. -/
theorem no_write_on_error (raw : List Nat) (e : Err) :
    run none = .error .missingArgument ∧
      (process raw = .error e → elfdwt raw = (-1, raw)) := by
  refine ⟨rfl, fun h => ?_⟩
  unfold elfdwt
  rw [h]

/-- Witness for C3 at the empty file. -/
theorem no_write_on_error_witness :
    run none = .error .missingArgument ∧ elfdwt [] = (-1, []) :=
  ⟨(no_write_on_error [] Err.emptyOrUnreadableFile).1,
    (no_write_on_error [] Err.emptyOrUnreadableFile).2 (by decide)⟩

/-! ### C7: files shorter than the signature -/

/-- C7: a zero-length file fails with `emptyOrUnreadableFile`; every
non-empty file shorter than 4 bytes fails with `invalidSignature`; and the
signature comparison is total on the embedding, reading only bytes inside
the buffer: it succeeds exactly when the first `min 4 length` bytes are the
full 4-byte ELF magic. -/
theorem short_file_invalid_signature (raw : List Nat) :
    (raw.length = 0 → process raw = .error .emptyOrUnreadableFile) ∧
      (raw ≠ [] → raw.length < 4 → process raw = .error .invalidSignature) ∧
      (signatureOk raw = true ↔ raw.take 4 = [0x7f, 0x45, 0x4c, 0x46]) := by
  have hsig : signatureOk raw = true ↔ raw.take 4 = [0x7f, 0x45, 0x4c, 0x46] := by
    rcases raw with _ | ⟨a, _ | ⟨b, _ | ⟨c, _ | ⟨d, t⟩⟩⟩⟩ <;>
      simp [signatureOk, List.getD] <;> omega
  refine ⟨fun h => ?_, fun hne hlt => ?_, hsig⟩
  · unfold process
    rw [if_pos h]
  · have h0 : raw.length ≠ 0 := by
      cases raw
      · exact absurd rfl hne
      · simp
    have hs : signatureOk raw = false := by
      cases hv : signatureOk raw
      · rfl
      · have := hsig.mp hv
        have : raw.length = 4 := by
          have h4 : (raw.take 4).length = 4 := by rw [this]; rfl
          simp [List.length_take] at h4
          omega
        omega
    unfold process
    rw [if_neg h0, if_pos hs]

/-- Witness for C7 at the 1-byte file `[1]`. -/
theorem short_file_invalid_signature_witness :
    process [1] = .error .invalidSignature :=
  (short_file_invalid_signature [1]).2.1 (by decide) (by decide)

/-! ### C8: write failures are not detected -/

/-- Counterexample for C8: on the accepted fixture `goodImage`, even when the
write-back fails (`writeOk = false`), `main` still exits 0 — the code never
checks the output stream, so "exit 0 only when the buffer was written" is
false. -/
theorem write_failure_unreported_cex :
    (process goodImage).isOk = true ∧ mainExit goodImage false = 0 := by
  constructor <;> decide

/-- C8 (amended): the exit code is 0 exactly when the pipeline reaches the
patcher, independent of whether the write-back succeeds; no write-failure
check exists in the code. -/
theorem exit_zero_iff_patched (raw : List Nat) (writeOk : Bool) :
    mainExit raw writeOk = 0 ↔ (process raw).isOk = true := by
  unfold mainExit
  cases hp : process raw <;> simp [Except.isOk, Except.toBool]

/-! ### C9: the empty-file diagnostic -/

/-- Counterexample for C9: the empty-file branch exists and is taken, but its
message is the generic I/O line `Error: could not open file`, which does not
mention ELF — unlike the signature failure's message. -/
theorem empty_file_message_cex :
    process [] = .error .emptyOrUnreadableFile ∧
      errorMessage .emptyOrUnreadableFile = "Error: could not open file" ∧
      mentionsElf (errorMessage .emptyOrUnreadableFile) = false ∧
      mentionsElf (errorMessage .invalidSignature) = true := by
  refine ⟨by decide, rfl, by decide, by decide⟩

/-- C9 (amended): a zero-byte load fails with the distinguished
`emptyOrUnreadableFile` error and a non-zero exit, but its message is the
generic `Error: could not open file`, not an ELF-specific one. -/
theorem empty_file_distinguished (raw : List Nat) (h : raw.length = 0) :
    process raw = .error .emptyOrUnreadableFile ∧ elfdwt raw = (-1, raw) ∧
      errorMessage .emptyOrUnreadableFile = "Error: could not open file" ∧
      mentionsElf (errorMessage .emptyOrUnreadableFile) = false := by
  have hp : process raw = .error .emptyOrUnreadableFile := by
    unfold process
    rw [if_pos h]
  refine ⟨hp, ?_, rfl, by decide⟩
  unfold elfdwt
  rw [hp]

/-- Witness for the amended C9 at the empty file. -/
theorem empty_file_distinguished_witness :
    process ([] : List Nat) = .error .emptyOrUnreadableFile ∧
      elfdwt [] = (-1, []) ∧
      errorMessage .emptyOrUnreadableFile = "Error: could not open file" ∧
      mentionsElf (errorMessage .emptyOrUnreadableFile) = false :=
  empty_file_distinguished [] (by decide)

/-! ### C2: the vector-table locator's failure modes -/

/-- C2: on every image that passed structural validation, the locator fails
with `wrongSectionType` exactly when section 1's type is not 1 (PROGBITS);
with type 1 it fails with `tooSmallForVectorTable` exactly when the image is
shorter than `sh_offset + 32`; otherwise the run reaches the patcher. -/
theorem locator_error_characterisation (raw : List Nat) (h0 : raw.length ≠ 0)
    (h1 : signatureOk raw = true) (h2 : headerSize ≤ raw.length)
    (h3 : 2 ≤ e_shnum raw)
    (h4 : e_shoff raw + e_shnum raw * sectorHeaderSize ≤ raw.length) :
    (process raw = .error .wrongSectionType ↔ sh_type raw ≠ 1) ∧
      (sh_type raw = 1 →
        (process raw = .error .tooSmallForVectorTable ↔
          raw.length < sh_offset raw + 32)) ∧
      (sh_type raw = 1 → sh_offset raw + 32 ≤ raw.length →
        process raw =
          .ok (patch raw (sh_offset raw)
            (calculate_crc (crcWords raw (sh_offset raw))))) := by
  have base := process_after_validation raw h0 h1 h2 h3 h4
  refine ⟨?_, fun t => ?_, fun t v => ?_⟩
  · rw [base]
    by_cases t : sh_type raw = 1
    · rw [if_neg (by simp [t])]
      split_ifs <;> simp [t]
    · rw [if_pos t]
      simp [t]
  · rw [base, if_neg (by simp [t])]
    split_ifs with v <;> simp [v]
  · rw [base, if_neg (by simp [t]), if_neg (by omega)]

/-- Witness for C2 on `goodImage` (type 1, enough bytes): the run reaches the
patcher and the locator error equivalences hold. -/
theorem locator_error_characterisation_witness :
    process goodImage =
      .ok (patch goodImage (sh_offset goodImage)
        (calculate_crc (crcWords goodImage (sh_offset goodImage)))) :=
  (locator_error_characterisation goodImage (by decide) (by decide) (by decide)
      (by decide) (by decide)).2.2 (by decide) (by decide)

/-! ### C5: the section-table size boundary -/

/-- C5: on every image that passed the earlier checks (signature, header
size, section count), an image whose length is exactly
`e_shoff + e_shnum * 40` passes the section-table size check (the run never
fails with `tooSmallForSectionTable`), while an image one byte shorter fails
with exactly that error. -/
theorem section_table_boundary (raw : List Nat) (h0 : raw.length ≠ 0)
    (h1 : signatureOk raw = true) (h2 : headerSize ≤ raw.length)
    (h3 : 2 ≤ e_shnum raw) :
    (raw.length = e_shoff raw + e_shnum raw * sectorHeaderSize →
      process raw ≠ .error .tooSmallForSectionTable) ∧
      (raw.length + 1 = e_shoff raw + e_shnum raw * sectorHeaderSize →
        process raw = .error .tooSmallForSectionTable) := by
  constructor
  · intro hlen
    have base := process_after_validation raw h0 h1 h2 h3 (by omega)
    rw [base]
    split_ifs <;> simp
  · intro hlen
    unfold process
    rw [if_neg h0, if_neg (by simp [h1]), if_neg (by omega), if_neg (by omega),
      if_pos (by omega)]

/-- Witness for C5 on the 132-byte boundary fixture (`e_shoff = 52`,
`e_shnum = 2`, bound = 132) and its 131-byte truncation. -/
theorem section_table_boundary_witness :
    process boundaryImage ≠ .error .tooSmallForSectionTable ∧
      process boundaryImageShort = .error .tooSmallForSectionTable :=
  ⟨(section_table_boundary boundaryImage (by decide) (by decide) (by decide)
      (by decide)).1 (by decide),
    (section_table_boundary boundaryImageShort (by decide) (by decide) (by decide)
      (by decide)).2 (by decide)⟩

/-! ### C4: frame effect of a successful run -/

/-- C4: on every successful run the written buffer has the same length as
the input, every byte outside `[sh_offset+28, sh_offset+32)` is unchanged,
and those 4 bytes hold the computed checksum little-endian. -/
theorem patch_frame_effect (raw out : List Nat) (h : process raw = .ok out) :
    out.length = raw.length ∧
      (∀ j, j < sh_offset raw + 28 ∨ sh_offset raw + 32 ≤ j →
        out.getD j 0 = raw.getD j 0) ∧
      out.getD (sh_offset raw + 28) 0 =
        calculate_crc (crcWords raw (sh_offset raw)) % 256 ∧
      out.getD (sh_offset raw + 29) 0 =
        calculate_crc (crcWords raw (sh_offset raw)) / 256 % 256 ∧
      out.getD (sh_offset raw + 30) 0 =
        calculate_crc (crcWords raw (sh_offset raw)) / 65536 % 256 ∧
      out.getD (sh_offset raw + 31) 0 =
        calculate_crc (crcWords raw (sh_offset raw)) / 16777216 % 256 := by
  obtain ⟨g0, g1, g2, g3, g4, g5, g6, hout⟩ := process_ok_inv raw out h
  subst hout
  exact ⟨patch_length _ _ _, fun j hj => patch_getD_out _ _ _ j hj,
    patch_getD_b0 _ _ _ g6, patch_getD_b1 _ _ _ g6, patch_getD_b2 _ _ _ g6,
    patch_getD_b3 _ _ _ g6⟩

/-- Witness for C4 on `goodImage`: length preserved, byte 0 untouched, and
the checksum's low byte lands at `sh_offset + 28 = 160`. -/
theorem patch_frame_effect_witness :
    goodPatched.length = goodImage.length ∧
      goodPatched.getD 0 0 = goodImage.getD 0 0 ∧
      goodPatched.getD 160 0 =
        calculate_crc (crcWords goodImage (sh_offset goodImage)) % 256 := by
  have hp := patch_frame_effect goodImage goodPatched (by decide)
  exact ⟨hp.1, hp.2.1 0 (Or.inl (by decide)), hp.2.2.1⟩

/-! ### C6: section-header addressing ignores `e_shentsize` -/

theorem getD_set2_ne (raw : List Nat) (a b j : Nat) (h1 : j ≠ 46) (h2 : j ≠ 47) :
    ((raw.set 46 a).set 47 b).getD j 0 = raw.getD j 0 := by
  rw [getD_set_ne _ _ _ _ (by omega), getD_set_ne _ _ _ _ (by omega)]

theorem u32le_set2 (raw : List Nat) (a b p : Nat) (h : p + 4 ≤ 46 ∨ 48 ≤ p) :
    u32le ((raw.set 46 a).set 47 b) p = u32le raw p := by
  unfold u32le
  rw [getD_set2_ne _ _ _ _ (by omega) (by omega),
    getD_set2_ne _ _ _ _ (by omega) (by omega),
    getD_set2_ne _ _ _ _ (by omega) (by omega),
    getD_set2_ne _ _ _ _ (by omega) (by omega)]

theorem u16le_set2 (raw : List Nat) (a b p : Nat) (h : p + 2 ≤ 46 ∨ 48 ≤ p) :
    u16le ((raw.set 46 a).set 47 b) p = u16le raw p := by
  unfold u16le
  rw [getD_set2_ne _ _ _ _ (by omega) (by omega),
    getD_set2_ne _ _ _ _ (by omega) (by omega)]

/-- Counterexample for C6: on `cexImageC6` the header's `e_shentsize` field
is 12, yet the locator accepts the image by reading type 1 at
`e_shoff + 40 = 92`; the record at the spec's address
`e_shoff + e_shentsize = 64` has type 0 and would have been rejected.  The
section header is therefore not decoded from `e_shoff + i * e_shentsize`. -/
theorem locator_shentsize_cex :
    e_shentsize cexImageC6 = 12 ∧ sh_type cexImageC6 = 1 ∧
      (process cexImageC6).isOk = true ∧ sh_typeSpec cexImageC6 = 0 ∧
      sectionBase cexImageC6 1 = 92 ∧ sectionBaseSpec cexImageC6 1 = 64 := by
  refine ⟨by decide, by decide, by decide, by decide, by decide, by decide⟩

/-- C6 (amended): the section header at index `i` is decoded from
`e_shoff + i * 40` (40 = `sizeof(elf::sector_header)`); the header's
`e_shentsize` field is never consulted: overwriting its two bytes (46–47)
changes neither the locator's outputs nor the validator/locator verdict,
for any image whose section table lies past those bytes (`e_shoff ≥ 4`). -/
theorem locator_ignores_shentsize (raw : List Nat) (a b : Nat) (e : Err)
    (hE : 4 ≤ e_shoff raw) :
    sh_type ((raw.set 46 a).set 47 b) = sh_type raw ∧
      sh_offset ((raw.set 46 a).set 47 b) = sh_offset raw ∧
      (process ((raw.set 46 a).set 47 b) = .error e ↔ process raw = .error e) := by
  have hsec : sectorHeaderSize = 40 := rfl
  have hL : ((raw.set 46 a).set 47 b).length = raw.length := by simp
  have hS : signatureOk ((raw.set 46 a).set 47 b) = signatureOk raw := by
    unfold signatureOk
    rw [getD_set2_ne raw a b 0 (by omega) (by omega),
      getD_set2_ne raw a b 1 (by omega) (by omega),
      getD_set2_ne raw a b 2 (by omega) (by omega),
      getD_set2_ne raw a b 3 (by omega) (by omega)]
  have hO : e_shoff ((raw.set 46 a).set 47 b) = e_shoff raw :=
    u32le_set2 raw a b 32 (Or.inl (by omega))
  have hN : e_shnum ((raw.set 46 a).set 47 b) = e_shnum raw :=
    u16le_set2 raw a b 48 (Or.inr (by omega))
  have hT : sh_type ((raw.set 46 a).set 47 b) = sh_type raw := by
    unfold sh_type sectionBase
    rw [hO]
    exact u32le_set2 raw a b _ (Or.inr (by omega))
  have hF : sh_offset ((raw.set 46 a).set 47 b) = sh_offset raw := by
    unfold sh_offset sectionBase
    rw [hO]
    exact u32le_set2 raw a b _ (Or.inr (by omega))
  refine ⟨hT, hF, ?_⟩
  unfold process
  rw [hL, hS, hN, hO, hT, hF]
  split_ifs <;> simp

/-- Witness for the amended C6 on `goodImage` with `e_shentsize` bytes
overwritten by 12 and 0. -/
theorem locator_ignores_shentsize_witness :
    sh_type ((goodImage.set 46 12).set 47 0) = sh_type goodImage ∧
      sh_offset ((goodImage.set 46 12).set 47 0) = sh_offset goodImage ∧
      (process ((goodImage.set 46 12).set 47 0) = .error .wrongSectionType ↔
        process goodImage = .error .wrongSectionType) :=
  locator_ignores_shentsize goodImage 12 0 Err.wrongSectionType (by decide)

/-! ### C10: idempotence of the full transformation -/

/-- Counterexample for C10: `cexImageC10` is accepted, but its section-1
`sh_offset` (80) makes the patch overwrite the `sh_offset` field itself
(bytes 108–111) with the checksum 0; re-running the transformation on the
patched buffer succeeds but patches offset 0's vector table instead,
producing a different byte sequence. -/
theorem double_patch_cex :
    (process cexImageC10).isOk = true ∧
      (process ((process cexImageC10).toOption.getD [])).isOk = true ∧
      (process ((process cexImageC10).toOption.getD [])).toOption.getD [] ≠
        (process cexImageC10).toOption.getD [] := by
  refine ⟨by decide, by decide, by decide⟩

/-- C10 (amended): the transformation is idempotent whenever the patched
word `[sh_offset+28, sh_offset+32)` overlaps neither the ELF header fields
(`sh_offset ≥ 24`) nor section 1's own header entry
`[e_shoff+40, e_shoff+80)`: the checksum only reads words 0–6 of the vector
table, which the patch leaves unchanged, so re-processing the patched
buffer succeeds and returns it unchanged. -/
theorem double_patch_idempotent (raw out : List Nat) (h : process raw = .ok out)
    (h24 : 24 ≤ sh_offset raw)
    (hd : sh_offset raw + 32 ≤ e_shoff raw + 40 ∨
      e_shoff raw + 80 ≤ sh_offset raw + 28) :
    process out = .ok out := by
  obtain ⟨g0, g1, g2, g3, g4, g5, g6, hout⟩ := process_ok_inv raw out h
  have hsec : sectorHeaderSize = 40 := rfl
  have hhd : headerSize = 52 := rfl
  subst hout
  set off := sh_offset raw with hoffdef
  set C := calculate_crc (crcWords raw off) with hCdef
  have hL := patch_length raw off C
  have hS := signatureOk_patch raw off C
  have hO : e_shoff (patch raw off C) = e_shoff raw :=
    u32le_patch raw off C 32 (Or.inl (by omega))
  have hN : e_shnum (patch raw off C) = e_shnum raw :=
    u16le_patch raw off C 48 (Or.inl (by omega))
  have hT : sh_type (patch raw off C) = sh_type raw := by
    unfold sh_type sectionBase
    rw [hO]
    exact u32le_patch raw off C _ (by omega)
  have hF : sh_offset (patch raw off C) = sh_offset raw := by
    unfold sh_offset sectionBase
    rw [hO]
    exact u32le_patch raw off C _ (by omega)
  have hstep := process_ok_of (patch raw off C) (by omega) (by rw [hS]; exact g1)
    (by omega) (by rw [hN]; exact g3) (by rw [hO, hN, hL]; exact g4)
    (by rw [hT]; exact g5) (by rw [hF, hL]; exact g6)
  rw [hstep, hF, crcWords_patch, ← hCdef,
    patch_fixed (patch raw off C) off C (patch_getD_b0 raw off C g6)
      (patch_getD_b1 raw off C g6) (patch_getD_b2 raw off C g6)
      (patch_getD_b3 raw off C g6)]

/-- Witness for the amended C10: re-processing the patched `goodImage`
returns it unchanged. -/
theorem double_patch_idempotent_witness :
    process goodPatched = .ok goodPatched :=
  double_patch_idempotent goodImage goodPatched (by decide) (by decide)
    (Or.inr (by decide))

end ElfDwt
